import Mathlib

/-!
Shallow embedding of the agent-orchestration layer of the repository
(src/src/domain/models/agent.py, src/src/application/ports/agent_service.py,
src/src/infrastructure/agents/langgraph_agent.py).

Python floats are modelled as exact rationals, `SecretStr` as `String`,
pydantic optional fields as `Option`.  External collaborators
(`init_chat_model`, `create_react_agent`, `create_supervisor`,
`MultiServerMCPClient`) are opaque: the compiled graph is modelled as the
record of the inputs it was built from (the spec's determinism invariant:
a graph is a pure function of its inputs), and the remote tool fetch is a
parameter carrying either the fetched descriptors or a discovery error.
-/

namespace AgentSpec

/-! ## Domain model: src/src/domain/models/agent.py -/

/-- Sampling parameters of the model (class `SamplingParameter`); every field
is optional with pydantic default `None`. -/
structure SamplingParameter where
  temperature : Option ℚ
  max_retries : Option ℤ
  presence_penalty : Option ℚ
  frequency_penalty : Option ℚ
  seed : Option ℤ
  logprobs : Option Bool
  top_logprobs : Option ℤ
  logit_bias : Option (List (ℤ × ℤ))
  streaming : Option Bool
  n : Option ℤ
  top_p : Option ℚ
  max_tokens : Option ℤ
  reasoning_effort : Option String
  deriving DecidableEq

/-- The all-`None` default of `SamplingParameter` (every pydantic field
defaults to `None`). -/
def SamplingParameter.default : SamplingParameter :=
  ⟨none, none, none, none, none, none, none, none, none, none, none, none, none⟩

/-- Model information (class `ModelInfo`): name, provider (default `""`),
api key (`SecretStr`, default empty). -/
structure ModelInfo where
  name : String
  provider : String
  api_key : String
  deriving DecidableEq

/-- Property `ModelInfo.identifier`:
`f"{self.provider}:{self.name}" if self.provider else self.name`;
Python string truthiness means: empty provider returns only the name. -/
def ModelInfo.identifier (m : ModelInfo) : String :=
  if m.provider = "" then m.name else m.provider ++ ":" ++ m.name

/-- Agent metadata (class `Agent`). -/
structure Agent where
  name : String
  model_info : ModelInfo
  sampling_parameters : SamplingParameter
  deriving DecidableEq

/-- Method `Agent.update_model_info(name, provider, api_key)`: all three
arguments are required; it assigns `self.model_info = ModelInfo(name=name,
provider=provider, api_key=api_key)`, a fresh object built only from the
arguments. -/
def Agent.update_model_info (a : Agent) (name provider api_key : String) :
    Agent :=
  { a with model_info := ⟨name, provider, api_key⟩ }

/-- The dict-merge step of `update_sampling_parameters`:
`{**current, **new}` restricted to one key.  `new` holds only non-`None`
arguments and `current` only non-`None` stored fields, with absent keys
becoming `None` again at revalidation; per key this is: a non-`None`
argument wins, otherwise the stored value survives. -/
def mergeParam {α : Type} (arg old : Option α) : Option α :=
  match arg with
  | some v => some v
  | none => old

/-- Method `Agent.update_sampling_parameters`: collects the non-`None`
keyword arguments (`new_parameters`), dumps the current non-`None` fields
(`current_parameters`), merges `{**current_parameters, **new_parameters}`
and revalidates a fresh `SamplingParameter` from the merged dict. -/
def Agent.update_sampling_parameters (a : Agent)
    (temperature : Option ℚ) (max_retries : Option ℤ)
    (presence_penalty : Option ℚ) (frequency_penalty : Option ℚ)
    (seed : Option ℤ) (logprobs : Option Bool) (top_logprobs : Option ℤ)
    (logit_bias : Option (List (ℤ × ℤ))) (streaming : Option Bool)
    (n : Option ℤ) (top_p : Option ℚ) (max_tokens : Option ℤ)
    (reasoning_effort : Option String) : Agent :=
  { a with
    sampling_parameters :=
      { temperature := mergeParam temperature a.sampling_parameters.temperature
        max_retries := mergeParam max_retries a.sampling_parameters.max_retries
        presence_penalty :=
          mergeParam presence_penalty a.sampling_parameters.presence_penalty
        frequency_penalty :=
          mergeParam frequency_penalty a.sampling_parameters.frequency_penalty
        seed := mergeParam seed a.sampling_parameters.seed
        logprobs := mergeParam logprobs a.sampling_parameters.logprobs
        top_logprobs :=
          mergeParam top_logprobs a.sampling_parameters.top_logprobs
        logit_bias := mergeParam logit_bias a.sampling_parameters.logit_bias
        streaming := mergeParam streaming a.sampling_parameters.streaming
        n := mergeParam n a.sampling_parameters.n
        top_p := mergeParam top_p a.sampling_parameters.top_p
        max_tokens := mergeParam max_tokens a.sampling_parameters.max_tokens
        reasoning_effort :=
          mergeParam reasoning_effort a.sampling_parameters.reasoning_effort } }

/-! ## Runtime layer: src/src/infrastructure/agents/langgraph_agent.py -/

/-- A tool descriptor: callable name plus schema (opaque to this layer). -/
structure Tool where
  name : String
  schema : String
  deriving DecidableEq

/-- A chat message (`{role, content}` pair). -/
structure Message where
  role : String
  content : String
  deriving DecidableEq

/-- A tool call requested by the model. -/
structure ToolCall where
  tool : String
  args : String
  deriving DecidableEq

/-- One unit of model output: content plus requested tool calls. -/
structure ModelOut where
  content : String
  tool_calls : List ToolCall
  deriving DecidableEq

/-- The chat-model handle produced by `init_chat_model(model=identifier,
api_key=..., **sampling_parameters_dump)` — opaque, modelled as the record
of its inputs. -/
structure LLM where
  identifier : String
  api_key : String
  params : SamplingParameter
  deriving DecidableEq

/-- The compiled ReAct graph produced by `create_react_agent` — opaque,
modelled as the record of its inputs (the spec's determinism invariant:
the graph is a pure function of these inputs). -/
structure Graph where
  model : LLM
  tools : List Tool
  promptFn : List Message → List Message
  response_format : Option String
  pre_model_hook : Option String
  state_schema : String
  checkpointer : Option Bool
  name : String

/-- Instance state of `LangGraphAgent`: the fields set in `__init__`.
`initToolsFn` stands for the result of the abstract `_initialize_tools`
override (a pure function per the spec), `promptFn` for the abstract
`_prompt` override. -/
structure AgentState where
  metadata : Agent
  llm : LLM
  stream_mode : String
  tools : List Tool
  response_format : Option String
  pre_model_hook : Option String
  state_schema : String
  checkpointer : Option Bool
  initToolsFn : List Tool
  promptFn : List Message → List Message

/-- The inputs `LangGraphAgent._update_graph` passes to
`create_react_agent`: the CURRENT `_llm`, `_tools`, `_prompt`,
`_response_format`, `_pre_model_hook`, `_state_schema`, `_checkpointer`
and `metadata.name`. -/
def mkReactGraph (s : AgentState) : Graph :=
  ⟨s.llm, s.tools, s.promptFn, s.response_format, s.pre_model_hook,
    s.state_schema, s.checkpointer, s.metadata.name⟩

/-- A `LangGraphAgent` runtime: its instance state plus the cached
`_graph`. -/
structure AgentRuntime where
  st : AgentState
  graph : Graph

/-- Method `_update_graph`: recompiles `self._graph` from the current
instance state. -/
def updateGraph (r : AgentRuntime) : AgentRuntime :=
  { r with graph := mkReactGraph r.st }

/-- Constructor arguments of `LangGraphAgent.__init__` together with the
two abstract overrides a concrete subclass supplies. -/
structure AgentConfig where
  name : String
  model_name : String
  model_provider : String
  api_key : String
  sampling_parameters : SamplingParameter
  stream_mode : String
  response_format : Option String
  pre_model_hook : Option String
  state_schema : String
  checkpointer : Option Bool
  initToolsFn : List Tool
  promptFn : List Message → List Message

/-- `AgentService.__init__`: builds `self.metadata = Agent(model_info=
{name, provider, api_key}, sampling_parameters=..., name=name)`. -/
def mkMetadata (c : AgentConfig) : Agent :=
  ⟨c.name, ⟨c.model_name, c.model_provider, c.api_key⟩,
    c.sampling_parameters⟩

/-- `self._llm = init_chat_model(model=self.metadata.model_info.identifier,
api_key=..., **sampling_parameters_dump)`. -/
def mkLLM (c : AgentConfig) : LLM :=
  ⟨(mkMetadata c).model_info.identifier, c.api_key, c.sampling_parameters⟩

/-- `LangGraphAgent.__init__`: stores metadata, llm, stream mode, the
initial tool list from `_initialize_tools()`, the remaining configuration,
then calls `_update_graph()`. -/
def mkLangGraphAgent (c : AgentConfig) : AgentRuntime :=
  let st : AgentState :=
    ⟨mkMetadata c, mkLLM c, c.stream_mode, c.initToolsFn,
      c.response_format, c.pre_model_hook, c.state_schema, c.checkpointer,
      c.initToolsFn, c.promptFn⟩
  updateGraph ⟨st, mkReactGraph st⟩

/-- Method `add_tools(tools)`: `self._tools.extend(tools)` then
`self._update_graph()`. -/
def add_tools (r : AgentRuntime) (ts : List Tool) : AgentRuntime :=
  updateGraph { r with st := { r.st with tools := r.st.tools ++ ts } }

/-- Method `update_tools(tools)`: `self._tools = tools` then
`self._update_graph()`. -/
def update_tools (r : AgentRuntime) (ts : List Tool) : AgentRuntime :=
  updateGraph { r with st := { r.st with tools := ts } }

/-- Method `reset_tools()`: `self.update_tools(self._initialize_tools())`. -/
def reset_tools (r : AgentRuntime) : AgentRuntime :=
  update_tools r r.st.initToolsFn

/-- One synchronous tool mutation of the registry. -/
inductive ToolMutation
  | add (ts : List Tool)
  | upd (ts : List Tool)
  | reset

/-- Apply one tool mutation to a runtime. -/
def applyMutation (r : AgentRuntime) : ToolMutation → AgentRuntime
  | .add ts => add_tools r ts
  | .upd ts => update_tools r ts
  | .reset => reset_tools r

/-- Apply a sequence of tool mutations, left to right. -/
def applyMutations (r : AgentRuntime) (ms : List ToolMutation) :
    AgentRuntime :=
  ms.foldl applyMutation r

/-- The pure list semantics of a mutation sequence: the tool list present
after the last mutation, starting from registry `cur` with baseline
`tInit` (the `_initialize_tools()` result). -/
def toolsAfter (tInit : List Tool) : List Tool → List ToolMutation → List Tool
  | cur, [] => cur
  | cur, .add ts :: ms => toolsAfter tInit (cur ++ ts) ms
  | _, .upd ts :: ms => toolsAfter tInit ts ms
  | _, .reset :: ms => toolsAfter tInit tInit ms

/-! ### Invocation semantics

`chat` / `chat_stream` invoke the cached `self._graph` with the messages
and a config binding `thread_id`.  The ReAct loop of the external
`create_react_agent` is modelled step by step: prompt the model with the
current messages, append its answer; if it requested tool calls, execute
them, append the tool messages and loop, else stop.  The model itself is a
parameter (`stub`), as is the tool executor; `fuel` bounds the recursion
(the host's recursion limit). -/

/-- One ReAct reasoning loop over a graph: returns the terminal message
list and the ordered per-step partial outputs. -/
def runLoop (g : Graph) (stub : List Message → ModelOut)
    (execTool : ToolCall → Message) :
    Nat → List Message → List Message × List ModelOut
  | 0, msgs => (msgs, [])
  | fuel + 1, msgs =>
    let out := stub (g.promptFn msgs)
    let msgs1 := msgs ++ [⟨"assistant", out.content⟩]
    if out.tool_calls.isEmpty then (msgs1, [out])
    else
      let toolMsgs := out.tool_calls.map execTool
      let rest := runLoop g stub execTool fuel (msgs1 ++ toolMsgs)
      (rest.1, out :: rest.2)

/-- Method `chat(message, thread_id)`: a single full invocation of the
cached graph scoped to `thread_id`, returning the terminal message list. -/
def chat (r : AgentRuntime) (stub : List Message → ModelOut)
    (execTool : ToolCall → Message) (fuel : Nat)
    (message : List Message) (thread_id : String) : List Message :=
  let _ := thread_id
  (runLoop r.graph stub execTool fuel message).1

/-- Method `chat_stream(message, thread_id)`: streams the cached graph,
yielding the ordered sequence of partial-result units. -/
def chat_stream (r : AgentRuntime) (stub : List Message → ModelOut)
    (execTool : ToolCall → Message) (fuel : Nat)
    (message : List Message) (thread_id : String) : List ModelOut :=
  let _ := thread_id
  (runLoop r.graph stub execTool fuel message).2

/-- Error raised when the remote tool-discovery collaborator fails. -/
inductive ToolDiscoveryError
  | unreachable (server : String)
  | malformed (server : String)
  deriving DecidableEq

/-- Method `load_mcp_tools(tools_transport)`: builds a
`MultiServerMCPClient` and awaits `get_tools()` — modelled by the
`fetched` parameter, since the collaborator is opaque — then merges via
`self.add_tools(mcp_tools)`.  An exception from `get_tools` propagates
before `add_tools` runs, leaving the runtime untouched. -/
def load_mcp_tools (r : AgentRuntime)
    (fetched : Except ToolDiscoveryError (List Tool)) :
    Except ToolDiscoveryError Unit × AgentRuntime :=
  match fetched with
  | .error e => (.error e, r)
  | .ok ts => (.ok (), add_tools r ts)

/-! ## Supervisor layer: class `LangGraphSupervisor` -/

/-- Python-level construction failure, as Python raises it. -/
inductive PyError
  | typeError (msg : String)
  | configurationError (msg : String)
  deriving DecidableEq

/-- The graph definition returned by `create_supervisor` — opaque, modelled
as the record of its inputs; in particular it embeds the child agents'
compiled graphs as passed. -/
structure SupGraphDef where
  agent_graphs : List Graph
  model : LLM
  tools : List Tool
  promptFn : List Message → List Message
  response_format : Option String
  state_schema : String
  supervisor_name : String

/-- The supervisor's compiled graph:
`self._graph_builder.compile(checkpointer=..., name=...)`. -/
structure SupGraph where
  builder : SupGraphDef
  checkpointer : Option Bool
  name : String

/-- Instance state of `LangGraphSupervisor`: the inherited single-agent
fields plus `self._agents`, the cached `_graph_builder` and the cached
compiled `_graph`. -/
structure SupervisorRuntime where
  agents : List AgentRuntime
  st : AgentState
  graph_builder : SupGraphDef
  graph : SupGraph

/-- Method `LangGraphSupervisor._update_graph`: collects each child's
CURRENT compiled `_graph` (`[agent._graph for agent in self._agents]`),
rebuilds `self._graph_builder` via `create_supervisor` from them and the
supervisor's own current llm/tools/prompt/config, then compiles
`self._graph` with the supervisor's checkpointer and name. -/
def supervisorUpdateGraph (s : SupervisorRuntime) : SupervisorRuntime :=
  let b : SupGraphDef :=
    ⟨s.agents.map (fun a => a.graph), s.st.llm, s.st.tools, s.st.promptFn,
      s.st.response_format, s.st.state_schema, s.st.metadata.name⟩
  { s with
    graph_builder := b
    graph := ⟨b, s.st.checkpointer, s.st.metadata.name⟩ }

/-- Replace the element at index `i` by `f` of it (used to model mutating
one child runtime the supervisor also references). -/
def modifyAt {α : Type} : List α → Nat → (α → α) → List α
  | [], _, _ => []
  | a :: as, 0, f => f a :: as
  | a :: as, i + 1, f => a :: modifyAt as i f

/-- A tool mutation performed on child `i`'s own runtime: the child's
registry and compiled graph change; nothing of the supervisor's own state
is touched. -/
def mutateChild (s : SupervisorRuntime) (i : Nat) (m : ToolMutation) :
    SupervisorRuntime :=
  { s with agents := modifyAt s.agents i (fun a => applyMutation a m) }

/-- The keyword parameters `LangGraphAgent.__init__` accepts (besides
`self`). -/
def langGraphAgentInitParams : List String :=
  ["name", "model_name", "model_provider", "api_key",
    "sampling_parameters", "stream_mode", "response_format",
    "pre_model_hook", "state_schema", "checkpointer"]

/-- The keyword arguments `LangGraphSupervisor.__init__` passes to
`super().__init__(...)`. -/
def supervisorSuperKwargs : List String :=
  ["name", "model_name", "model_provider", "api_key",
    "sampling_parameters", "stream_mode", "tools", "response_format",
    "pre_model_hook", "state_schema", "checkpointer"]

/-- Python call-argument binding: every keyword passed must be a parameter
of the callee, else a `TypeError: unexpected keyword argument` is raised
before the callee body runs. -/
def bindKwargs (params passed : List String) : Except PyError Unit :=
  match passed.find? (fun k => !params.contains k) with
  | some k => .error (.typeError ("unexpected keyword argument " ++ k))
  | none => .ok ()

/-- Constructor arguments of `LangGraphSupervisor.__init__`: the child
runtimes plus the single-agent configuration and the supervisor's own
`tools` list. -/
structure SupervisorConfig where
  name : String
  agents : List AgentRuntime
  model_name : String
  model_provider : String
  api_key : String
  sampling_parameters : SamplingParameter
  stream_mode : String
  tools : Option (List Tool)
  response_format : Option String
  pre_model_hook : Option String
  state_schema : String
  checkpointer : Option Bool
  initToolsFn : List Tool
  promptFn : List Message → List Message

/-- The body `LangGraphSupervisor.__init__` would execute if the
`super().__init__` call bound its arguments: store `self._agents`, run the
inherited constructor (which sets `self._tools = self._initialize_tools()`
and whose `_update_graph` dispatches to the supervisor's override), cache
`_graph_builder`.  The `tools` argument is only forwarded, never stored,
and no duplicate-child-name validation is performed anywhere. -/
def mkSupervisorBody (c : SupervisorConfig) : SupervisorRuntime :=
  let st : AgentState :=
    ⟨⟨c.name, ⟨c.model_name, c.model_provider, c.api_key⟩,
        c.sampling_parameters⟩,
      ⟨ModelInfo.identifier ⟨c.model_name, c.model_provider, c.api_key⟩,
        c.api_key, c.sampling_parameters⟩,
      c.stream_mode, c.initToolsFn, c.response_format, c.pre_model_hook,
      c.state_schema, c.checkpointer, c.initToolsFn, c.promptFn⟩
  supervisorUpdateGraph
    ⟨c.agents, st, ⟨[], st.llm, [], st.promptFn, st.response_format,
        st.state_schema, st.metadata.name⟩,
      ⟨⟨[], st.llm, [], st.promptFn, st.response_format, st.state_schema,
          st.metadata.name⟩, st.checkpointer, st.metadata.name⟩⟩

/-- Constructor `LangGraphSupervisor.__init__`: sets `self._agents`, then
calls `super().__init__(..., tools=tools, ...)`.  `LangGraphAgent.__init__`
has no `tools` parameter, so Python's argument binding raises before any
constructor body or graph build runs; only if binding succeeded would the
body execute. -/
def mkLangGraphSupervisor (c : SupervisorConfig) :
    Except PyError SupervisorRuntime :=
  match bindKwargs langGraphAgentInitParams supervisorSuperKwargs with
  | .error e => .error e
  | .ok _ => .ok (mkSupervisorBody c)

/-- Does a construction attempt fail with `ConfigurationError`? -/
def raisesConfigError {α : Type} : Except PyError α → Bool
  | .error (.configurationError _) => true
  | _ => false

/-! ## Concrete instances used by counterexamples and witnesses -/

/-- The concrete sampling parameters `{temperature: 0.7, seed: 42}` of the
claim-C2 scenario. -/
def spC2 : SamplingParameter :=
  { SamplingParameter.default with temperature := some (7 / 10), seed := some 42 }

/-- A concrete agent holding `spC2`. -/
def agentC2 : Agent := ⟨"a", ⟨"m", "p", "k"⟩, spC2⟩

/-- A concrete agent for the claim-C5 counterexample, whose stored model
binding is `{name: "m", provider: "p", api_key: "k"}`. -/
def agentC5 : Agent := ⟨"a", ⟨"m", "p", "k"⟩, SamplingParameter.default⟩

/-- Modelled from the spec (the contract claim C5 asserts, for comparison
with the code): `update_model_info` merges non-null fields into the
existing binding, leaving absent fields at their prior values — the same
partial-update contract as `update_sampling_parameters`. -/
def update_model_info_claimed (a : Agent)
    (name provider api_key : Option String) : Agent :=
  { a with
    model_info :=
      ⟨name.getD a.model_info.name, provider.getD a.model_info.provider,
        api_key.getD a.model_info.api_key⟩ }

/-- A concrete single-agent configuration with the given name: empty
initial tool set, identity prompt strategy. -/
def childCfg (nm : String) : AgentConfig :=
  ⟨nm, "m", "", "", SamplingParameter.default, "messages", none, none,
    "AgentState", none, [], fun msgs => msgs⟩

/-- A concrete supervisor configuration whose child list holds two
children both named `"A"` (the duplicate-name scenario of claim C3). -/
def dupSupCfg : SupervisorConfig :=
  ⟨"sup", [mkLangGraphAgent (childCfg "A"), mkLangGraphAgent (childCfg "A")],
    "m", "", "", SamplingParameter.default, "messages", none, none, none,
    "AgentState", none, [], fun msgs => msgs⟩

/-- A deterministic stub model that answers `"ok"` and requests no tool
calls. -/
def stubNoTools : List Message → ModelOut := fun _ => ⟨"ok", []⟩

/-- A stub tool executor. -/
def execStub : ToolCall → Message := fun _ => ⟨"tool", ""⟩

/-! ## Shared lemmas -/

/-- Every tool mutation ends in `_update_graph()`, so it reestablishes the
sync between the cached graph and the current instance state. -/
lemma mutation_synced (r : AgentRuntime) (m : ToolMutation) :
    (applyMutation r m).graph = mkReactGraph (applyMutation r m).st := by
  cases m <;> rfl

/-- The sync between cached graph and instance state is preserved by any
mutation sequence. -/
lemma mutations_synced : ∀ (ms : List ToolMutation) (r : AgentRuntime),
    r.graph = mkReactGraph r.st →
    (applyMutations r ms).graph = mkReactGraph (applyMutations r ms).st
  | [], _, h => h
  | m :: ms, r, _ => mutations_synced ms (applyMutation r m) (mutation_synced r m)

/-- The registry after a mutation sequence is the pure list semantics of
that sequence. -/
lemma mutations_tools : ∀ (ms : List ToolMutation) (r : AgentRuntime),
    (applyMutations r ms).st.tools = toolsAfter r.st.initToolsFn r.st.tools ms
  | [], _ => rfl
  | .add ts :: ms, r => mutations_tools ms (add_tools r ts)
  | .upd ts :: ms, r => mutations_tools ms (update_tools r ts)
  | .reset :: ms, r => mutations_tools ms (reset_tools r)

/-- Resetting after one more mutation is the same as resetting directly:
mutations only touch the registry and the cached graph, both of which
`reset_tools` overwrites. -/
lemma reset_after_mutation (r : AgentRuntime) (m : ToolMutation) :
    reset_tools (applyMutation r m) = reset_tools r := by
  cases m <;> rfl

/-- Resetting after any mutation sequence is the same as resetting
directly. -/
lemma reset_after_mutations : ∀ (ms : List ToolMutation) (r : AgentRuntime),
    reset_tools (applyMutations r ms) = reset_tools r
  | [], _ => rfl
  | m :: ms, r => by
    have h := reset_after_mutations ms (applyMutation r m)
    exact h.trans (reset_after_mutation r m)

/-- Resetting a freshly constructed runtime is the identity: the fresh
registry already is `_initialize_tools()` and the fresh graph already is
built from it. -/
lemma reset_fresh (c : AgentConfig) :
    reset_tools (mkLangGraphAgent c) = mkLangGraphAgent c := rfl

/-! ## Claims -/

/-- Claim C1: for every sequence of tool mutations (`add_tools`,
`update_tools`, `reset_tools`) applied to a single-agent runtime, the
cached graph that the next `chat` / `chat_stream` invokes is built from
exactly the current instance state — in particular its tool list is
exactly the list present after the last mutation, never a prior
snapshot. -/
theorem C1_no_stale_graph (c : AgentConfig) (ms : List ToolMutation) :
    (applyMutations (mkLangGraphAgent c) ms).graph
      = mkReactGraph (applyMutations (mkLangGraphAgent c) ms).st
    ∧ (applyMutations (mkLangGraphAgent c) ms).graph.tools
      = toolsAfter c.initToolsFn c.initToolsFn ms := by
  have hs := mutations_synced ms (mkLangGraphAgent c) rfl
  refine ⟨hs, ?_⟩
  rw [hs]
  exact mutations_tools ms (mkLangGraphAgent c)

/-- Claim C2: `update_sampling_parameters` replaces exactly the parameters
passed non-`None` and keeps every parameter passed `None` at its prior
stored value (so the all-`None` update is the identity); in particular
`{temperature: 0.7, seed: 42}` updated with only `{temperature: 0.9}`
yields exactly `{temperature: 0.9, seed: 42}`. -/
theorem C2_sampling_partial_update :
    (∀ (a : Agent) (t : Option ℚ) (mr : Option ℤ) (pp fp : Option ℚ)
      (sd : Option ℤ) (lp : Option Bool) (tlp : Option ℤ)
      (lb : Option (List (ℤ × ℤ))) (sm : Option Bool) (nn : Option ℤ)
      (tp : Option ℚ) (mt : Option ℤ) (re : Option String),
      (a.update_sampling_parameters t mr pp fp sd lp tlp lb sm nn tp mt
          re).sampling_parameters
        = ⟨mergeParam t a.sampling_parameters.temperature,
            mergeParam mr a.sampling_parameters.max_retries,
            mergeParam pp a.sampling_parameters.presence_penalty,
            mergeParam fp a.sampling_parameters.frequency_penalty,
            mergeParam sd a.sampling_parameters.seed,
            mergeParam lp a.sampling_parameters.logprobs,
            mergeParam tlp a.sampling_parameters.top_logprobs,
            mergeParam lb a.sampling_parameters.logit_bias,
            mergeParam sm a.sampling_parameters.streaming,
            mergeParam nn a.sampling_parameters.n,
            mergeParam tp a.sampling_parameters.top_p,
            mergeParam mt a.sampling_parameters.max_tokens,
            mergeParam re a.sampling_parameters.reasoning_effort⟩)
    ∧ (∀ a : Agent,
      a.update_sampling_parameters none none none none none none none none
        none none none none none = a)
    ∧ (agentC2.update_sampling_parameters (some (9 / 10)) none none none
        none none none none none none none none none).sampling_parameters
      = { SamplingParameter.default with
          temperature := some (9 / 10), seed := some 42 } := by
  exact ⟨fun a t mr pp fp sd lp tlp lb sm nn tp mt re => rfl,
    fun a => rfl, rfl⟩

/-- Claim C3 counterexample: for the concrete supervisor configuration
with two children both named `"A"`, construction does NOT fail with
`ConfigurationError` — it fails with the argument-binding `TypeError`
every supervisor construction hits (the `tools` keyword forwarded to
`LangGraphAgent.__init__`, which has no such parameter), and the source
contains no duplicate-child-name check at all. -/
theorem C3_counterexample :
    raisesConfigError (mkLangGraphSupervisor dupSupCfg) = false := by
  decide

/-- Claim C3 as amended: supervisor construction performs no
duplicate-child-name validation and never raises `ConfigurationError`;
for EVERY configuration (duplicate child names or not) it fails with
`TypeError: unexpected keyword argument tools`, raised by Python's
argument binding before any constructor body runs and hence before any
graph compilation is attempted. -/
theorem C3_supervisor_construction_type_error (c : SupervisorConfig) :
    mkLangGraphSupervisor c
      = Except.error (PyError.typeError "unexpected keyword argument tools") := by
  rfl

/-- Claim C4: if remote tool discovery fails, `load_mcp_tools` surfaces
the error to the caller and leaves the runtime exactly as it was — the
registry and the cached graph are untouched (no partial merge). -/
theorem C4_load_mcp_atomic_on_error (r : AgentRuntime)
    (e : ToolDiscoveryError) :
    load_mcp_tools r (Except.error e) = (Except.error e, r)
    ∧ (load_mcp_tools r (Except.error e)).2.st.tools = r.st.tools
    ∧ (load_mcp_tools r (Except.error e)).2.graph = r.graph :=
  ⟨rfl, rfl, rfl⟩

/-- Claim C5 counterexample: updating `agentC5` with a new model name and
no (i.e. empty / unspecified) provider and key discards the prior
provider `"p"` instead of keeping it: the code's result differs from the
claimed partial-update contract at this concrete input, because
`update_model_info` requires all three fields and rebuilds the binding
wholesale. -/
theorem C5_counterexample :
    (agentC5.update_model_info "m2" "" "").model_info
      ≠ (update_model_info_claimed agentC5 (some "m2") none none).model_info
    ∧ (agentC5.update_model_info "m2" "" "").model_info.provider
      ≠ agentC5.model_info.provider := by
  decide

/-- Claim C5 as amended: `update_model_info` replaces the model binding
wholesale — all three arguments are required and the new `ModelInfo` is
built solely from them, discarding every prior binding value; only the
agent's `name` and `sampling_parameters` are left untouched.  It does not
share `update_sampling_parameters`' partial-update contract. -/
theorem C5_update_model_info_replaces (a : Agent) (nm pv key : String) :
    (a.update_model_info nm pv key).model_info = ⟨nm, pv, key⟩
    ∧ (a.update_model_info nm pv key).name = a.name
    ∧ (a.update_model_info nm pv key).sampling_parameters
      = a.sampling_parameters :=
  ⟨rfl, rfl, rfl⟩

/-- Claim C6: once the supervisor's graph is built, a child runtime's own
rebuild (tool mutation) does not change the supervisor's cached graph;
that graph still embeds the child graphs captured at the supervisor's
last rebuild, and only a supervisor-side rebuild refreshes them to the
children's current graphs. -/
theorem C6_supervisor_graph_frame (s : SupervisorRuntime) (i : Nat)
    (m : ToolMutation) :
    (mutateChild (supervisorUpdateGraph s) i m).graph
      = (supervisorUpdateGraph s).graph
    ∧ (supervisorUpdateGraph s).graph.builder.agent_graphs
      = s.agents.map (fun a => a.graph)
    ∧ (supervisorUpdateGraph
        (mutateChild (supervisorUpdateGraph s) i m)).graph.builder.agent_graphs
      = (mutateChild (supervisorUpdateGraph s) i m).agents.map
          (fun a => a.graph) :=
  ⟨rfl, rfl, rfl⟩

/-- Claim C7: `reset_tools()` on a runtime that has undergone any sequence
of tool mutations restores the runtime to exactly its freshly constructed
state (registry back to `_initialize_tools()`'s result, graph rebuilt, no
other state change), so a subsequent `chat` — in particular against a
stub model making no tool calls — behaves identically to the same `chat`
on a fresh runtime with the same configuration. -/
theorem C7_reset_restores_fresh (c : AgentConfig) (ms : List ToolMutation)
    (stub : List Message → ModelOut) (execTool : ToolCall → Message)
    (fuel : Nat) (message : List Message) (tid : String) :
    reset_tools (applyMutations (mkLangGraphAgent c) ms) = mkLangGraphAgent c
    ∧ chat (reset_tools (applyMutations (mkLangGraphAgent c) ms)) stub
        execTool fuel message tid
      = chat (mkLangGraphAgent c) stub execTool fuel message tid := by
  have h :=
    (reset_after_mutations ms (mkLangGraphAgent c)).trans (reset_fresh c)
  exact ⟨h, by rw [h]⟩

/-- Claim C8: with everything fixed (configuration, deterministic stub
model, tool executor, message history, thread id), two separate
`chat_stream` runs against two freshly constructed runtimes have equal
graphs and yield the same ordered sequence of partial-result units. -/
theorem C8_stream_two_run_determinism (c : AgentConfig)
    (stub : List Message → ModelOut) (execTool : ToolCall → Message)
    (fuel : Nat) (message : List Message) (tid : String)
    (r1 r2 : AgentRuntime) (h1 : r1 = mkLangGraphAgent c)
    (h2 : r2 = mkLangGraphAgent c) :
    r1.graph = r2.graph
    ∧ chat_stream r1 stub execTool fuel message tid
      = chat_stream r2 stub execTool fuel message tid := by
  subst h1
  subst h2
  exact ⟨rfl, rfl⟩

/-- Witness for claim C8 at a concrete configuration, stub model, message
history and thread id. -/
theorem C8_stream_two_run_determinism_witness :
    (mkLangGraphAgent (childCfg "s") = mkLangGraphAgent (childCfg "s"))
    ∧ ((mkLangGraphAgent (childCfg "s")).graph
        = (mkLangGraphAgent (childCfg "s")).graph
      ∧ chat_stream (mkLangGraphAgent (childCfg "s")) stubNoTools execStub 3
          [⟨"user", "hi"⟩] "t1"
        = chat_stream (mkLangGraphAgent (childCfg "s")) stubNoTools execStub 3
          [⟨"user", "hi"⟩] "t1") :=
  ⟨rfl,
    C8_stream_two_run_determinism (childCfg "s") stubNoTools execStub 3
      [⟨"user", "hi"⟩] "t1" (mkLangGraphAgent (childCfg "s"))
      (mkLangGraphAgent (childCfg "s")) rfl rfl⟩

/-- Claim C9: `add_tools` makes the registry exactly the prior registry
followed by the new tools (values and relative order preserved, new tools
after the old ones) and then rebuilds the graph from the current state. -/
theorem C9_add_tools_appends (r : AgentRuntime) (ts : List Tool) :
    (add_tools r ts).st.tools = r.st.tools ++ ts
    ∧ (add_tools r ts).graph = mkReactGraph (add_tools r ts).st :=
  ⟨rfl, rfl⟩

/-- Claim C10: `ModelInfo.identifier` returns `"provider:name"` when the
provider is non-empty and exactly the name when the provider is the empty
string (no leading colon is ever produced). -/
theorem C10_identifier_format (m : ModelInfo) :
    (m.provider ≠ "" → m.identifier = m.provider ++ ":" ++ m.name)
    ∧ (m.provider = "" → m.identifier = m.name) := by
  constructor
  · intro h
    simp [ModelInfo.identifier, h]
  · intro h
    simp [ModelInfo.identifier, h]

/-- Witness for claim C10 at two concrete model bindings: one with
provider `"openai"`, one with empty provider. -/
theorem C10_identifier_format_witness :
    (("openai" : String) ≠ ""
      ∧ ModelInfo.identifier ⟨"gpt", "openai", "k"⟩ = "openai:gpt")
    ∧ (("" : String) = ""
      ∧ ModelInfo.identifier ⟨"gpt", "", "k"⟩ = "gpt") :=
  ⟨⟨by decide, (C10_identifier_format ⟨"gpt", "openai", "k"⟩).1 (by decide)⟩,
    ⟨rfl, (C10_identifier_format ⟨"gpt", "", "k"⟩).2 rfl⟩⟩

end AgentSpec
